import Mathlib

/-!
Shallow embedding of the Google Drive plugin's file-ingestion pipeline
(`src/plugins/drive.ts`) and the `biograph.file_metadata` table schema
(`src/db/schemas/filemetadata.ts`).

Conventions of the embedding:
* timestamps (`new Date()`, `Date.now()`) are a single `now : Nat` passed in;
* byte buffers are `List Nat`; the MD5 hex digest is an abstract function in
  the environment (the claims quantify over hash equality, not MD5 itself);
* the database table is a `List FileRecord`; drizzle's
  `insert ... onConflictDoUpdate (target hash)` is `upsertByHash`;
* `await` on a fallible operation is a `match` on `Except`; the `try/catch`
  of `processLocalFile` is the `match` in `processLocalFile` over
  `processLocalFileBody`;
* `logger` calls append the formatted message to a `logs` list.
-/

namespace Drive

/-- One row of `biograph.file_metadata`. Columns from the schema file:
`id`, `hash` (primary key), `fileName`, `fileSize`, `createdAt`,
`modifiedAt`, `tags`. The plugin additionally writes a `status` column
(from the upstream BioAgents schema; `'pending' as any` in the source). -/
structure FileRecord where
  id : String
  hash : String
  fileName : String
  fileSize : Nat
  createdAt : Nat
  modifiedAt : Nat
  tags : Option (List String)
  status : String
deriving Repr, DecidableEq

/-- Metadata object of the task created by `runtime.createTask` in
`processLocalFile`. -/
structure TaskMetadata where
  updateInterval : Nat
  updatedAt : Nat
  fileId : String
  fileName : String
  modifiedAt : Nat
deriving Repr, DecidableEq

/-- The task handed to `runtime.createTask`. -/
structure ProcessingTask where
  name : String
  description : String
  tags : List String
  metadata : TaskMetadata
deriving Repr, DecidableEq

/-- Observable state threaded through event processing: the
`biograph.file_metadata` rows, the tasks handed to the external queue, and
the log lines. -/
structure PipelineState where
  db : List FileRecord
  tasks : List ProcessingTask
  logs : List String
deriving Repr, DecidableEq

/-- External collaborators of `processLocalFile`: the filesystem
(`fs.readFile`, `fs.stat`), the MD5 hex digest, and fault injection for the
database (a `some e` makes the corresponding `runtime.db` call throw `e`,
matching a storage fault). -/
structure Env where
  readFile : String → Except String (List Nat)
  statSize : String → Except String Nat
  md5hex : List Nat → String
  dbReadError : Option String
  dbWriteError : Option String

/-- JavaScript `str.split(sep)` on a character class, at the level of
character lists: splits at every separator, keeping empty segments, and
yields `[[]]` on the empty string (JS `''.split` yields `['']`). -/
def splitChars (sep : Char → Bool) : List Char → List (List Char)
  | [] => [[]]
  | c :: cs =>
    if sep c then [] :: splitChars sep cs
    else
      match splitChars sep cs with
      | [] => [[c]]
      | s :: ss => (c :: s) :: ss

/-- `filePath.split(/[\\/]/).pop() || 'unknown'` from the source (the last
path segment is the empty string exactly when `pop()` is falsy). -/
def fileNameOf (filePath : String) : String :=
  match (splitChars (fun c => c = '/' || c = '\\') filePath.data).getLast? with
  | some s => if s = [] then "unknown" else ⟨s⟩
  | none => "unknown"

/-- JavaScript `s.endsWith(t)`: `t.data` is a suffix of `s.data`. -/
def strEndsWith (s t : String) : Bool :=
  List.isSuffixOf t.data s.data

/-- `runtime.db.select().from(fileMetadataTable).where(eq(hash, h))`:
the rows whose `hash` column equals `h`, or a thrown storage error. -/
def dbSelect (env : Env) (db : List FileRecord) (h : String) :
    Except String (List FileRecord) :=
  match env.dbReadError with
  | some e => Except.error e
  | none => Except.ok (db.filter (fun r => r.hash == h))

/-- `insert(fileMetadataTable).values({id, hash, fileName, fileSize,
modifiedAt, status}).onConflictDoUpdate({target: hash, set: {fileName,
fileSize, modifiedAt, id}}).returning()` from the source. If a row with the
hash exists, the listed columns of that row are updated; otherwise a fresh
row is inserted (`createdAt` from the column default `now`, `tags` null).
Returns the new table together with the rows the statement returned. -/
def upsertByHash (db : List FileRecord) (newId h fn : String) (sz now : Nat) :
    List FileRecord × List FileRecord :=
  if db.any (fun r => r.hash == h) then
    let db' := db.map (fun r =>
      if r.hash == h then
        { r with fileName := fn, fileSize := sz, modifiedAt := now, id := newId }
      else r)
    (db', db'.filter (fun r => r.hash == h))
  else
    let newRec : FileRecord :=
      { id := newId, hash := h, fileName := fn, fileSize := sz,
        createdAt := now, modifiedAt := now, tags := none, status := "pending" }
    (db ++ [newRec], [newRec])

/-- The `upsertByHash` database call with write-fault injection. -/
def dbUpsert (env : Env) (db : List FileRecord) (newId h fn : String)
    (sz now : Nat) : Except String (List FileRecord × List FileRecord) :=
  match env.dbWriteError with
  | some e => Except.error e
  | none => Except.ok (upsertByHash db newId h fn sz now)

/-- The task built by `runtime.createTask` in `processLocalFile`. -/
def mkProcessTask (fileId fn : String) (now : Nat) : ProcessingTask :=
  { name := "PROCESS_PDF",
    description := "Convert local PDF to RDF triples",
    tags := ["rdf", "graph", "process", "hypothesis"],
    metadata :=
      { updateInterval := 3 * 60 * 1000, updatedAt := now,
        fileId := fileId, fileName := fn, modifiedAt := now } }

/-- Body of the `try` block of `processLocalFile`: read the file, hash it,
skip if a row with the hash exists, otherwise upsert and (when rows were
returned) create a `PROCESS_PDF` task. Any thrown error is the `.error`
case. -/
def processLocalFileBody (env : Env) (now : Nat) (filePath : String)
    (st : PipelineState) : Except String PipelineState :=
  let fn := fileNameOf filePath
  match env.readFile filePath with
  | Except.error e => Except.error e
  | Except.ok fileBuffer =>
    match env.statSize filePath with
    | Except.error e => Except.error e
    | Except.ok fileSize =>
      let hash := env.md5hex fileBuffer
      match dbSelect env st.db hash with
      | Except.error e => Except.error e
      | Except.ok fileExists =>
        if fileExists.length > 0 then
          Except.ok { st with
            logs := st.logs ++ ["Local file " ++ fn ++ " already exists, skipping"] }
        else
          let fileId := "local_" ++ hash.take 8
          match dbUpsert env st.db fileId hash fn fileSize now with
          | Except.error e => Except.error e
          | Except.ok res =>
            if res.2.length > 0 then
              Except.ok { st with
                db := res.1,
                tasks := st.tasks ++ [mkProcessTask fileId fn now],
                logs := st.logs ++
                  ["Added local file " ++ fn ++ " to biograph.file_metadata"] }
            else
              Except.ok { st with db := res.1 }

/-- `processLocalFile`: the body above inside `try/catch`; a caught error is
logged (`logger.error`) and swallowed, so the function always returns. -/
def processLocalFile (env : Env) (now : Nat) (filePath : String)
    (st : PipelineState) : PipelineState :=
  match processLocalFileBody env now filePath st with
  | Except.ok st' => st'
  | Except.error _ =>
    { st with logs := st.logs ++ ["Failed to process local file " ++ filePath ++ ":"] }

/-- A chokidar event dispatched to the handlers registered by
`startLocalMonitoring`. -/
inductive WatchEvent
  | add (path : String)
  | change (path : String)
  | unlink (path : String)

/-- The event handlers registered in `startLocalMonitoring`: `add` skips
non-PDF paths with a log line, `change` skips them silently, both otherwise
run `processLocalFile`; `unlink` only logs the deletion ("Deletion not
implemented, as file ID is unknown" in the source). -/
def handleWatchEvent (env : Env) (now : Nat) (ev : WatchEvent)
    (st : PipelineState) : PipelineState :=
  match ev with
  | WatchEvent.add path =>
    if !strEndsWith path ".pdf" then
      { st with logs := st.logs ++ ["Skipping non-PDF file: " ++ path] }
    else processLocalFile env now path st
  | WatchEvent.change path =>
    if !strEndsWith path ".pdf" then st
    else processLocalFile env now path st
  | WatchEvent.unlink path =>
    if !strEndsWith path ".pdf" then st
    else { st with logs := st.logs ++ ["Local file deleted: " ++ fileNameOf path] }

/-- Outcome of one run of `syncWithRetry`: the value handed back to the
caller (the source's return type is `Promise<void>`, so success carries no
payload), the number of invocations of the wrapped sync operation, and the
backoff sleeps (ms, in order) executed between attempts. -/
structure SyncRun (E : Type) where
  result : Except E Unit
  calls : Nat
  sleeps : List Nat
deriving Repr

/-- The `while (attempts < maxRetries)` loop of `syncWithRetry`. `op n` is
the result of the invocation performed when `attempts = n`. On success the
loop returns; on failure `attempts` is incremented, the error is rethrown
when `attempts === maxRetries`, and otherwise the loop sleeps
`1000 * 2 ^ attempts` ms and continues. `fuel` starts at
`maxRetries.toNat`, which dominates the iteration count, so the `0` case
coincides with the loop guard failing (both return with no further calls). -/
def syncLoop {E A : Type} (op : Nat → Except E A) (maxRetries : Int) :
    Nat → Nat → Nat → List Nat → SyncRun E
  | 0, _, calls, sleeps => ⟨Except.ok (), calls, sleeps⟩
  | fuel + 1, attempts, calls, sleeps =>
    if (attempts : Int) < maxRetries then
      match op attempts with
      | Except.ok _ => ⟨Except.ok (), calls + 1, sleeps⟩
      | Except.error e =>
        if ((attempts + 1 : Nat) : Int) = maxRetries then
          ⟨Except.error e, calls + 1, sleeps⟩
        else
          syncLoop op maxRetries fuel (attempts + 1) (calls + 1)
            (sleeps ++ [1000 * 2 ^ (attempts + 1)])
    else ⟨Except.ok (), calls, sleeps⟩

/-- `syncWithRetry(runtime, maxRetries)`: run the loop from `attempts = 0`.
The wrapped operation is `syncGoogleDriveChanges`; its success value is
logged and discarded (the function returns `Promise<void>`). -/
def syncWithRetry {E A : Type} (op : Nat → Except E A) (maxRetries : Int) :
    SyncRun E :=
  syncLoop op maxRetries maxRetries.toNat 0 0 []

/-- Number of rows of the table whose `hash` column is `h`. -/
def countByHash (db : List FileRecord) (h : String) : Nat :=
  (db.filter (fun r => r.hash == h)).length

/-- Empty pipeline state: no rows, no tasks, no logs. -/
def stEmpty : PipelineState := ⟨[], [], []⟩

/-- Concrete healthy environment: every path except `bad.pdf` reads as the
bytes `[1, 2, 3]` of size 3; the digest of any buffer is a fixed hex
string; the database works. -/
def envW : Env :=
  { readFile := fun p => if p = "bad.pdf" then Except.error "EACCES" else Except.ok [1, 2, 3],
    statSize := fun _ => Except.ok 3,
    md5hex := fun _ => "0123456789abcdef",
    dbReadError := none,
    dbWriteError := none }

/-- Concrete environment whose filesystem refuses every read. -/
def envNoRead : Env :=
  { readFile := fun _ => Except.error "EACCES",
    statSize := fun _ => Except.ok 3,
    md5hex := fun _ => "0123456789abcdef",
    dbReadError := none,
    dbWriteError := none }

/-- Concrete sync operation failing on the first two invocations, then
succeeding with 42. -/
def opA : Nat → Except String Nat :=
  fun n => if n < 2 then Except.error "fail" else Except.ok 42

/-- Concrete sync operation failing on the first two invocations, then
succeeding with 7. -/
def opB : Nat → Except String Nat :=
  fun n => if n < 2 then Except.error "fail" else Except.ok 7

/-- A concrete stored row, used to instantiate the upsert frame theorem. -/
def rec0 : FileRecord :=
  { id := "local_aaaaaaaa", hash := "h0", fileName := "old.pdf", fileSize := 5,
    createdAt := 1, modifiedAt := 1, tags := some ["paper"], status := "done" }

/-- Appending one row shifts the per-hash row count by 1 exactly when the
new row carries that hash. -/
theorem countByHash_append (db : List FileRecord) (r : FileRecord) (h : String) :
    countByHash (db ++ [r]) h = countByHash db h + (if r.hash == h then 1 else 0) := by
  by_cases hr : r.hash == h <;>
    simp [countByHash, List.filter_append, hr]

/-- The conflict test of the upsert agrees with the row count: no row
carries the hash iff the count is zero. -/
theorem any_hash_eq_false_iff (db : List FileRecord) (h : String) :
    (db.any (fun r => r.hash == h) = false) ↔ countByHash db h = 0 := by
  simp [countByHash, List.length_eq_zero, List.filter_eq_nil_iff, List.any_eq_false]

/-- Evaluation of the `try` body on a fresh hash with working filesystem and
store: the row is inserted and one `PROCESS_PDF` task is created. -/
theorem processLocalFileBody_new (env : Env) (now : Nat) (p : String)
    (st : PipelineState) (B : List Nat) (sz : Nat)
    (hr : env.readFile p = Except.ok B) (hs : env.statSize p = Except.ok sz)
    (hsel : env.dbReadError = none) (hins : env.dbWriteError = none)
    (h0 : countByHash st.db (env.md5hex B) = 0) :
    processLocalFileBody env now p st = Except.ok
      { db := st.db ++
          [{ id := "local_" ++ (env.md5hex B).take 8, hash := env.md5hex B,
             fileName := fileNameOf p, fileSize := sz, createdAt := now,
             modifiedAt := now, tags := none, status := "pending" }],
        tasks := st.tasks ++
          [mkProcessTask ("local_" ++ (env.md5hex B).take 8) (fileNameOf p) now],
        logs := st.logs ++
          ["Added local file " ++ fileNameOf p ++ " to biograph.file_metadata"] } := by
  have hflt : st.db.filter (fun r => r.hash == env.md5hex B) = [] := by
    have h1 : (st.db.filter (fun r => r.hash == env.md5hex B)).length = 0 := h0
    exact List.length_eq_zero.mp h1
  have hany : st.db.any (fun r => r.hash == env.md5hex B) = false :=
    (any_hash_eq_false_iff st.db (env.md5hex B)).mpr h0
  simp [processLocalFileBody, dbSelect, dbUpsert, upsertByHash, hr, hs, hsel,
    hins, hflt, hany]

/-- Evaluation of the `try` body when a row with the hash already exists:
the run only logs the skip line. -/
theorem processLocalFileBody_existing (env : Env) (now : Nat) (p : String)
    (st : PipelineState) (B : List Nat) (sz : Nat)
    (hr : env.readFile p = Except.ok B) (hs : env.statSize p = Except.ok sz)
    (hsel : env.dbReadError = none)
    (hpos : 0 < countByHash st.db (env.md5hex B)) :
    processLocalFileBody env now p st = Except.ok
      { st with logs := st.logs ++
          ["Local file " ++ fileNameOf p ++ " already exists, skipping"] } := by
  have hlen : 0 < (st.db.filter (fun r => r.hash == env.md5hex B)).length := hpos
  simp [processLocalFileBody, dbSelect, hr, hs, hsel, hlen]

/-- The `try/catch` wrapper forwards a successful body verbatim. -/
theorem processLocalFile_of_body_ok (env : Env) (now : Nat) (p : String)
    (st st' : PipelineState) (h : processLocalFileBody env now p st = Except.ok st') :
    processLocalFile env now p st = st' := by
  unfold processLocalFile
  rw [h]

/-- One failing loop iteration that is not the last: the error is logged,
`attempts` is bumped, and the loop sleeps `1000 * 2 ^ attempts` ms. -/
theorem syncLoop_fail_step {E A : Type} (op : Nat → Except E A) (m : Int)
    (fuel attempts calls : Nat) (sleeps : List Nat) (e : E)
    (hlt : (attempts : Int) < m) (hop : op attempts = Except.error e)
    (hne : ¬ ((attempts : Int) + 1 = m)) :
    syncLoop op m (fuel + 1) attempts calls sleeps =
      syncLoop op m fuel (attempts + 1) (calls + 1)
        (sleeps ++ [1000 * 2 ^ (attempts + 1)]) := by
  simp [syncLoop, hlt, hop, hne]

/-- The final failing iteration: `attempts` reaches `maxRetries` and the
last error is rethrown. -/
theorem syncLoop_fail_last {E A : Type} (op : Nat → Except E A) (m : Int)
    (fuel attempts calls : Nat) (sleeps : List Nat) (e : E)
    (hlt : (attempts : Int) < m) (hop : op attempts = Except.error e)
    (heq : (attempts : Int) + 1 = m) :
    syncLoop op m (fuel + 1) attempts calls sleeps =
      ⟨Except.error e, calls + 1, sleeps⟩ := by
  simp [syncLoop, hlt, hop, heq]

/-- A successful iteration returns at once with no further sleeps. -/
theorem syncLoop_ok {E A : Type} (op : Nat → Except E A) (m : Int)
    (fuel attempts calls : Nat) (sleeps : List Nat) (a : A)
    (hlt : (attempts : Int) < m) (hop : op attempts = Except.ok a) :
    syncLoop op m (fuel + 1) attempts calls sleeps =
      ⟨Except.ok (), calls + 1, sleeps⟩ := by
  simp [syncLoop, hlt, hop]

/-- C3: for a sync operation failing on every invocation, `syncWithRetry`
with `maxRetries = 3` invokes the operation exactly 3 times, sleeps 2000 ms
(= 1000·2¹ ≥ 1000) between attempts 1 and 2 and 4000 ms (= 1000·2² ≥ 2000)
between attempts 2 and 3, and rethrows the error of the third attempt. -/
theorem C3_retry_bound {E A : Type} (op : Nat → Except E A) (errs : Nat → E)
    (h : ∀ n, op n = Except.error (errs n)) :
    (syncWithRetry op 3).calls = 3 ∧
    (syncWithRetry op 3).result = Except.error (errs 2) ∧
    (syncWithRetry op 3).sleeps = [2000, 4000] ∧
    (2000 : Nat) = 1000 * 2 ^ 1 ∧ (4000 : Nat) = 1000 * 2 ^ 2 ∧
    (1000 : Nat) ≤ 2000 ∧ (2000 : Nat) ≤ 4000 := by
  have e3 : syncWithRetry op 3 = ⟨Except.error (errs 2), 3, [2000, 4000]⟩ :=
    calc syncWithRetry op 3
        = syncLoop op 3 (2 + 1) 0 0 [] := rfl
      _ = syncLoop op 3 (1 + 1) 1 1 [2000] := by
            rw [syncLoop_fail_step op 3 2 0 0 [] (errs 0) (by decide) (h 0) (by decide)]
            norm_num
      _ = syncLoop op 3 (0 + 1) 2 2 [2000, 4000] := by
            rw [syncLoop_fail_step op 3 1 1 1 [2000] (errs 1) (by decide) (h 1) (by decide)]
            norm_num
      _ = ⟨Except.error (errs 2), 3, [2000, 4000]⟩ := by
            rw [syncLoop_fail_last op 3 0 2 2 [2000, 4000] (errs 2) (by decide) (h 2) (by decide)]
  rw [e3]
  norm_num

/-- Witness for C3 at the concrete always-failing operation. -/
theorem C3_retry_bound_witness :
    (syncWithRetry (fun _ => (Except.error "boom" : Except String Unit)) 3).calls = 3 ∧
    (syncWithRetry (fun _ => (Except.error "boom" : Except String Unit)) 3).result =
      Except.error "boom" ∧
    (syncWithRetry (fun _ => (Except.error "boom" : Except String Unit)) 3).sleeps =
      [2000, 4000] ∧
    (2000 : Nat) = 1000 * 2 ^ 1 ∧ (4000 : Nat) = 1000 * 2 ^ 2 ∧
    (1000 : Nat) ≤ 2000 ∧ (2000 : Nat) ≤ 4000 :=
  C3_retry_bound (fun _ => Except.error "boom") (fun _ => "boom") (fun _ => rfl)

/-- C4 counterexample: the source's `syncWithRetry` has return type
`Promise<void>`; the third attempt's success value is logged and discarded,
never handed to the caller. Two operations whose third attempts succeed
with the different values 42 and 7 give the caller the identical value
`Except.ok ()`, so the runner does not return the success result of the
third attempt. -/
theorem C4_counterexample :
    (syncWithRetry opA 3).result = Except.ok () ∧
    (syncWithRetry opB 3).result = Except.ok () ∧
    (syncWithRetry opA 3).result = (syncWithRetry opB 3).result ∧
    opA 2 = Except.ok 42 ∧ opB 2 = Except.ok 7 ∧ (42 : Nat) ≠ 7 :=
  ⟨rfl, rfl, rfl, rfl, rfl, by decide⟩

/-- C4 (amended): for a sync operation failing on its first two invocations
and succeeding on the third, `syncWithRetry` with `maxRetries = 3` does not
raise, stops after exactly 3 invocations, and returns successfully (with
`void`, the success value being only logged). -/
theorem C4_retry_recovery {E A : Type} (op : Nat → Except E A) (e0 e1 : E) (a : A)
    (h0 : op 0 = Except.error e0) (h1 : op 1 = Except.error e1)
    (h2 : op 2 = Except.ok a) :
    (syncWithRetry op 3).result = Except.ok () ∧
    (syncWithRetry op 3).calls = 3 ∧
    (syncWithRetry op 3).sleeps = [2000, 4000] := by
  have e3 : syncWithRetry op 3 = ⟨Except.ok (), 3, [2000, 4000]⟩ :=
    calc syncWithRetry op 3
        = syncLoop op 3 (2 + 1) 0 0 [] := rfl
      _ = syncLoop op 3 (1 + 1) 1 1 [2000] := by
            rw [syncLoop_fail_step op 3 2 0 0 [] e0 (by decide) h0 (by decide)]
            norm_num
      _ = syncLoop op 3 (0 + 1) 2 2 [2000, 4000] := by
            rw [syncLoop_fail_step op 3 1 1 1 [2000] e1 (by decide) h1 (by decide)]
            norm_num
      _ = ⟨Except.ok (), 3, [2000, 4000]⟩ := by
            rw [syncLoop_ok op 3 0 2 2 [2000, 4000] a (by decide) h2]
  rw [e3]
  exact ⟨rfl, rfl, rfl⟩

/-- Witness for the amended C4 at the concrete fail-fail-succeed operation. -/
theorem C4_retry_recovery_witness :
    (syncWithRetry opA 3).result = Except.ok () ∧
    (syncWithRetry opA 3).calls = 3 ∧
    (syncWithRetry opA 3).sleeps = [2000, 4000] :=
  C4_retry_recovery opA "fail" "fail" 42 rfl rfl rfl

/-- C10: for every `maxRetries ≤ 0` the `while` guard fails immediately, so
`syncWithRetry` returns successfully with zero invocations of the wrapped
operation, no sleeps and no error — indistinguishable, for the caller, from
a successful sync. -/
theorem C10_nonpositive_retries {E A : Type} (op : Nat → Except E A)
    (maxRetries : Int) (h : maxRetries ≤ 0) :
    (syncWithRetry op maxRetries).result = Except.ok () ∧
    (syncWithRetry op maxRetries).calls = 0 ∧
    (syncWithRetry op maxRetries).sleeps = [] := by
  have ht : maxRetries.toNat = 0 := Int.toNat_of_nonpos h
  rw [syncWithRetry, ht]
  exact ⟨rfl, rfl, rfl⟩

/-- Witness for C10 at `maxRetries = -1`. -/
theorem C10_nonpositive_retries_witness :
    ((-1 : Int) ≤ 0) ∧
    ((syncWithRetry opA (-1)).result = Except.ok () ∧
     (syncWithRetry opA (-1)).calls = 0 ∧
     (syncWithRetry opA (-1)).sleeps = []) :=
  ⟨by decide, C10_nonpositive_retries opA (-1) (by decide)⟩

/-- C1: processing two change events whose bytes hash to the same fresh
value leaves exactly one row with that hash, the first sighting enqueues
exactly one `PROCESS_PDF` task, and the second sighting enqueues none. -/
theorem C1_ingestion_idempotent (env : Env) (now1 now2 : Nat) (p1 p2 : String)
    (st0 : PipelineState) (B1 B2 : List Nat) (sz1 sz2 : Nat)
    (hr1 : env.readFile p1 = Except.ok B1) (hs1 : env.statSize p1 = Except.ok sz1)
    (hr2 : env.readFile p2 = Except.ok B2) (hs2 : env.statSize p2 = Except.ok sz2)
    (hhash : env.md5hex B2 = env.md5hex B1)
    (hsel : env.dbReadError = none) (hins : env.dbWriteError = none)
    (h0 : countByHash st0.db (env.md5hex B1) = 0) :
    countByHash (processLocalFile env now2 p2 (processLocalFile env now1 p1 st0)).db
      (env.md5hex B1) = 1 ∧
    (processLocalFile env now1 p1 st0).tasks = st0.tasks ++
      [mkProcessTask ("local_" ++ (env.md5hex B1).take 8) (fileNameOf p1) now1] ∧
    (processLocalFile env now2 p2 (processLocalFile env now1 p1 st0)).tasks =
      (processLocalFile env now1 p1 st0).tasks := by
  have hb1 := processLocalFileBody_new env now1 p1 st0 B1 sz1 hr1 hs1 hsel hins h0
  have hp1 := processLocalFile_of_body_ok _ _ _ _ _ hb1
  have hcnt1 : countByHash (processLocalFile env now1 p1 st0).db (env.md5hex B1) = 1 := by
    rw [hp1]
    simp [countByHash_append, h0]
  have hpos : 0 < countByHash (processLocalFile env now1 p1 st0).db (env.md5hex B2) := by
    rw [hhash, hcnt1]
    decide
  have hb2 := processLocalFileBody_existing env now2 p2
    (processLocalFile env now1 p1 st0) B2 sz2 hr2 hs2 hsel hpos
  have hp2 := processLocalFile_of_body_ok _ _ _ _ _ hb2
  refine ⟨?_, ?_, ?_⟩
  · rw [hp2]
    exact hcnt1
  · rw [hp1]
  · rw [hp2]

/-- Witness for C1: the same three bytes arriving under two different
names, from an empty store. -/
theorem C1_ingestion_idempotent_witness :
    countByHash (processLocalFile envW 2 "b/y.pdf" (processLocalFile envW 1 "a/x.pdf" stEmpty)).db
      (envW.md5hex [1, 2, 3]) = 1 ∧
    (processLocalFile envW 1 "a/x.pdf" stEmpty).tasks = stEmpty.tasks ++
      [mkProcessTask ("local_" ++ (envW.md5hex [1, 2, 3]).take 8) (fileNameOf "a/x.pdf") 1] ∧
    (processLocalFile envW 2 "b/y.pdf" (processLocalFile envW 1 "a/x.pdf" stEmpty)).tasks =
      (processLocalFile envW 1 "a/x.pdf" stEmpty).tasks :=
  C1_ingestion_idempotent envW 1 2 "a/x.pdf" "b/y.pdf" stEmpty [1, 2, 3] [1, 2, 3] 3 3
    rfl rfl rfl rfl rfl rfl rfl rfl

/-- C2 counterexample: the same bytes re-sighted later under the name
`two.pdf` at time 5 leave the stored row exactly as first written — the
pipeline's existence check returns early, so `displayName` stays `one.pdf`
and `modifiedAt` stays 3, contradicting the claimed update of
`displayName`/`modifiedAt` on re-sighting. -/
theorem C2_counterexample :
    ((processLocalFile envW 5 "b/two.pdf" (processLocalFile envW 3 "a/one.pdf" stEmpty)).db.map
      (fun r => (r.fileName, r.modifiedAt))) = [("one.pdf", 3)] ∧
    ("one.pdf" : String) ≠ "two.pdf" ∧ (3 : Nat) ≠ 5 :=
  ⟨rfl, by decide, by decide⟩

/-- C2 (amended): a later pipeline-processed event whose bytes hash to a
stored record's `contentHash` is skipped entirely: no field of any record
changes (in particular `displayName` and `modifiedAt` keep their old
values, as do `contentHash` and `createdAt`), no second record is created,
no task is enqueued, and only the skip log line is emitted. -/
theorem C2_resight_skips (env : Env) (now : Nat) (p : String)
    (st : PipelineState) (B : List Nat) (sz : Nat)
    (hr : env.readFile p = Except.ok B) (hs : env.statSize p = Except.ok sz)
    (hsel : env.dbReadError = none)
    (hpos : 0 < countByHash st.db (env.md5hex B)) :
    processLocalFile env now p st =
      { st with logs := st.logs ++
          ["Local file " ++ fileNameOf p ++ " already exists, skipping"] } :=
  processLocalFile_of_body_ok _ _ _ _ _
    (processLocalFileBody_existing env now p st B sz hr hs hsel hpos)

/-- Witness for the amended C2: a store holding the hash of the arriving
bytes under the old name `one.pdf`. -/
theorem C2_resight_skips_witness :
    processLocalFile envW 5 "b/two.pdf"
      ⟨[⟨"local_01234567", "0123456789abcdef", "one.pdf", 3, 3, 3, none, "pending"⟩], [], []⟩ =
    ⟨[⟨"local_01234567", "0123456789abcdef", "one.pdf", 3, 3, 3, none, "pending"⟩], [],
      ["Local file two.pdf already exists, skipping"]⟩ :=
  C2_resight_skips envW 5 "b/two.pdf"
    ⟨[⟨"local_01234567", "0123456789abcdef", "one.pdf", 3, 3, 3, none, "pending"⟩], [], []⟩
    [1, 2, 3] 3 rfl rfl rfl (by decide)

/-- C5: the upsert (insert … on conflict (hash) do update) inserts a fresh
row when no row carries the hash; when rows carry it, it keeps the table's
length and rewrites exactly the conflicting rows, setting `fileName`,
`fileSize`, `modifiedAt` and `id` while keeping `hash`, `createdAt` (and
`tags`, `status`) from the old row; non-conflicting rows are untouched. -/
theorem C5_upsert_frame (db : List FileRecord) (newId hv fn : String) (sz now : Nat) :
    (db.any (fun r => r.hash == hv) = false →
      (upsertByHash db newId hv fn sz now).1 = db ++
        [{ id := newId, hash := hv, fileName := fn, fileSize := sz,
           createdAt := now, modifiedAt := now, tags := none, status := "pending" }]) ∧
    (db.any (fun r => r.hash == hv) = true →
      (upsertByHash db newId hv fn sz now).1.length = db.length ∧
      ∀ i : Nat, ∀ r : FileRecord, db[i]? = some r →
        (r.hash = hv → (upsertByHash db newId hv fn sz now).1[i]? =
          some ⟨newId, r.hash, fn, sz, r.createdAt, now, r.tags, r.status⟩) ∧
        (r.hash ≠ hv → (upsertByHash db newId hv fn sz now).1[i]? = some r)) := by
  constructor
  · intro hno
    simp [upsertByHash, hno]
  · intro hyes
    have hmap : (upsertByHash db newId hv fn sz now).1 = db.map (fun r =>
        if r.hash == hv then
          { r with fileName := fn, fileSize := sz, modifiedAt := now, id := newId }
        else r) := by
      simp [upsertByHash, hyes]
    rw [hmap]
    refine ⟨List.length_map db _, ?_⟩
    intro i r hir
    rw [List.getElem?_map, hir]
    constructor
    · intro hr
      cases r
      simp_all
    · intro hr
      simp_all

/-- Witness for C5: updating the concrete stored row `rec0` through a
conflicting upsert keeps its `hash`, `createdAt`, `tags` and `status`. -/
theorem C5_upsert_frame_witness :
    (upsertByHash [rec0] "local_bbbbbbbb" "h0" "new.pdf" 9 7).1[0]? =
      some ⟨"local_bbbbbbbb", rec0.hash, "new.pdf", 9, rec0.createdAt, 7, rec0.tags, rec0.status⟩ :=
  (((C5_upsert_frame [rec0] "local_bbbbbbbb" "h0" "new.pdf" 9 7).2 (by decide)).2
    0 rec0 (by decide)).1 (by decide)

/-- C6: an `add` or `change` event for a path not ending in `.pdf` leaves
the store and the task queue unchanged, raises no error, and never consults
the environment (no bytes are read): the outcome is identical under any two
environments and timestamps. -/
theorem C6_extension_filter (env env' : Env) (now now' : Nat) (path : String)
    (st : PipelineState) (hp : strEndsWith path ".pdf" = false) :
    ((handleWatchEvent env now (WatchEvent.add path) st).db = st.db ∧
     (handleWatchEvent env now (WatchEvent.add path) st).tasks = st.tasks ∧
     handleWatchEvent env now (WatchEvent.add path) st =
       handleWatchEvent env' now' (WatchEvent.add path) st) ∧
    (handleWatchEvent env now (WatchEvent.change path) st = st ∧
     handleWatchEvent env now (WatchEvent.change path) st =
       handleWatchEvent env' now' (WatchEvent.change path) st) := by
  simp [handleWatchEvent, hp]

/-- Witness for C6 at the spec's example `notes.txt`, compared across a
healthy and a read-refusing environment. -/
theorem C6_extension_filter_witness :
    ((handleWatchEvent envW 1 (WatchEvent.add "notes.txt") stEmpty).db = stEmpty.db ∧
     (handleWatchEvent envW 1 (WatchEvent.add "notes.txt") stEmpty).tasks = stEmpty.tasks ∧
     handleWatchEvent envW 1 (WatchEvent.add "notes.txt") stEmpty =
       handleWatchEvent envNoRead 2 (WatchEvent.add "notes.txt") stEmpty) ∧
    (handleWatchEvent envW 1 (WatchEvent.change "notes.txt") stEmpty = stEmpty ∧
     handleWatchEvent envW 1 (WatchEvent.change "notes.txt") stEmpty =
       handleWatchEvent envNoRead 2 (WatchEvent.change "notes.txt") stEmpty) :=
  C6_extension_filter envW envNoRead 1 2 "notes.txt" stEmpty rfl

/-- C7: an `unlink` (removed) event never touches the store and never
enqueues a task, whatever the path and environment; at most a deletion log
line is appended. -/
theorem C7_removed_retention (env : Env) (now : Nat) (path : String)
    (st : PipelineState) :
    (handleWatchEvent env now (WatchEvent.unlink path) st).db = st.db ∧
    (handleWatchEvent env now (WatchEvent.unlink path) st).tasks = st.tasks ∧
    ((handleWatchEvent env now (WatchEvent.unlink path) st).logs = st.logs ∨
     (handleWatchEvent env now (WatchEvent.unlink path) st).logs =
       st.logs ++ ["Local file deleted: " ++ fileNameOf path]) := by
  cases hp : strEndsWith path ".pdf" <;> simp [handleWatchEvent, hp]

/-- C8 counterexample: a concrete accepted new-content event enqueues a
task whose name is `PROCESS_PDF`, not the claimed `PROCESS_FILE`. -/
theorem C8_counterexample :
    (processLocalFile envW 4 "a/p.pdf" stEmpty).tasks.map (fun t => t.name) =
      ["PROCESS_PDF"] ∧
    ("PROCESS_PDF" : String) ≠ "PROCESS_FILE" :=
  ⟨rfl, by decide⟩

/-- C8 (amended): for every accepted new-content event, exactly one task is
handed to the queue, with name `PROCESS_PDF`, a fixed description and tags,
and metadata carrying the record's source identifier (`fileId`), the file
name, and the enqueue timestamp (`updatedAt`), plus `updateInterval` and
`modifiedAt`. -/
theorem C8_task_shape (env : Env) (now : Nat) (p : String) (st : PipelineState)
    (B : List Nat) (sz : Nat)
    (hr : env.readFile p = Except.ok B) (hs : env.statSize p = Except.ok sz)
    (hsel : env.dbReadError = none) (hins : env.dbWriteError = none)
    (h0 : countByHash st.db (env.md5hex B) = 0) :
    (processLocalFile env now p st).tasks = st.tasks ++
      [{ name := "PROCESS_PDF",
         description := "Convert local PDF to RDF triples",
         tags := ["rdf", "graph", "process", "hypothesis"],
         metadata := { updateInterval := 3 * 60 * 1000, updatedAt := now,
                       fileId := "local_" ++ (env.md5hex B).take 8,
                       fileName := fileNameOf p, modifiedAt := now } }] := by
  have hb := processLocalFileBody_new env now p st B sz hr hs hsel hins h0
  have hp := processLocalFile_of_body_ok _ _ _ _ _ hb
  rw [hp]
  rfl

/-- Witness for the amended C8 at a concrete accepted event. -/
theorem C8_task_shape_witness :
    (processLocalFile envW 4 "a/p.pdf" stEmpty).tasks = stEmpty.tasks ++
      [{ name := "PROCESS_PDF",
         description := "Convert local PDF to RDF triples",
         tags := ["rdf", "graph", "process", "hypothesis"],
         metadata := { updateInterval := 3 * 60 * 1000, updatedAt := 4,
                       fileId := "local_" ++ (envW.md5hex [1, 2, 3]).take 8,
                       fileName := fileNameOf "a/p.pdf", modifiedAt := 4 } }] :=
  C8_task_shape envW 4 "a/p.pdf" stEmpty [1, 2, 3] 3 rfl rfl rfl rfl rfl

/-- C9: whenever the body of `processLocalFile` throws (unreadable bytes,
failing store call, …), the `catch` confines the fault: the caller sees a
normal return, the store and task queue are untouched, and the only effect
is the error log line — so sibling events in the same batch are unaffected. -/
theorem C9_fault_isolation (env : Env) (now : Nat) (p : String)
    (st : PipelineState) (e : String)
    (h : processLocalFileBody env now p st = Except.error e) :
    (processLocalFile env now p st).db = st.db ∧
    (processLocalFile env now p st).tasks = st.tasks ∧
    (processLocalFile env now p st).logs =
      st.logs ++ ["Failed to process local file " ++ p ++ ":"] := by
  unfold processLocalFile
  rw [h]
  exact ⟨rfl, rfl, rfl⟩

/-- Witness for C9: a filesystem refusing the read makes the body throw,
and the pipeline swallows it. -/
theorem C9_fault_isolation_witness :
    (processLocalFileBody envNoRead 1 "a/x.pdf" stEmpty = Except.error "EACCES") ∧
    ((processLocalFile envNoRead 1 "a/x.pdf" stEmpty).db = stEmpty.db ∧
     (processLocalFile envNoRead 1 "a/x.pdf" stEmpty).tasks = stEmpty.tasks ∧
     (processLocalFile envNoRead 1 "a/x.pdf" stEmpty).logs =
       stEmpty.logs ++ ["Failed to process local file " ++ "a/x.pdf" ++ ":"]) :=
  ⟨rfl, C9_fault_isolation envNoRead 1 "a/x.pdf" stEmpty "EACCES" rfl⟩

end Drive
